import Mathlib

/-
Verification development for the EdSteward.ai validation orchestration engine.

The JavaScript source is shallowly embedded as executable Lean definitions:

* JavaScript objects become structures; optional / possibly-absent fields
  become Option-typed fields.
* Evidence maps (plain JS objects used as string-keyed dictionaries) become
  association lists with JS property-get / property-set semantics
  (objGet / objSet below); JS truthiness of stored values is modelled by
  the function truthy.
* ISO-8601 timestamps are modelled as natural-number instants (comparisons
  and maximum agree with Date comparisons on the corresponding instants).
* The JS float expressions Math.round((total/count)*10)/10 and
  Math.round((s/t)*100) are modelled exactly over the rationals they denote
  (Math.round(x) = floor(x + 1/2) for x >= 0), computed in integer
  arithmetic (jsRoundRatio); the weighted complexity score is likewise
  computed exactly in tenths.
* The three regular-expression tests that classifier code runs against a
  regulation title (/\b(shall|must|...)\b/i and friends) are embedded as
  precomputed Boolean fields of the Regulation record
  (titleHasComplexLanguage, titleHasNumericRequirements,
  titleHasTechnicalTerms); the title string itself is kept for its length
  and for the validator payload.
* Asynchronous collaborators (database lookup, remote Lambda invocation,
  version-control service, clocks, request ids) are supplied through an
  explicit environment record Env; a remote invocation yields a
  RemoteOutcome (success payload, function error, or thrown transport
  error - an unparsable success payload behaves like a thrown error since
  the same catch block recovers it).
* Audit events are fire-and-forget side effects with no influence on the
  data flow and are not modelled.
-/

set_option autoImplicit false

namespace EdSteward

/-! ## JS values and JS object (dictionary) operations -/

/-- Model of a JavaScript value stored in an evidence map: booleans,
numbers, strings, or nested objects. -/
inductive EvValue where
  | vBool (b : Bool)
  | vNum (n : Int)
  | vStr (s : String)
  | vObj (fields : List (String × EvValue))

/-- JS truthiness of an evidence value: false, 0 and the empty string are
falsy; every object is truthy. -/
def truthy : EvValue → Bool
  | .vBool b => b
  | .vNum n => !(n == 0)
  | .vStr s => !(s == "")
  | .vObj _ => true

/-- A JS object used as a string-keyed dictionary, in insertion order. -/
abbrev Obj := List (String × EvValue)

/-- JS property read o[k]: the value stored under k, if any. -/
def objGet : Obj → String → Option EvValue
  | [], _ => none
  | (k2, v) :: rest, k => if k2 == k then some v else objGet rest k

/-- JS property write o[k] = v: replace the value in place if the key
exists (object keys are unique, so first match suffices), otherwise
append at the end (JS insertion order). -/
def objSet : Obj → String → EvValue → Obj
  | [], k, v => [(k, v)]
  | (k2, w) :: rest, k, v =>
    if k2 == k then (k, v) :: rest else (k2, w) :: objSet rest k v

/-- JS x || d for an optional string (absent and empty are falsy). -/
def jsOrStr (o : Option String) (d : String) : String :=
  match o with
  | none => d
  | some s => if s = "" then d else s

/-- JS x || d for an optional number (absent and 0 are falsy). -/
def jsOrNat (o : Option Nat) (d : Nat) : Nat :=
  match o with
  | none => d
  | some 0 => d
  | some n => n

/-- Math.round(num/den) for den > 0, computed exactly:
Math.round(x) = floor(x + 1/2) for x >= 0. -/
def jsRoundRatio (num den : Nat) : Nat := (2 * num + den) / (2 * den)

/-! ## Data model -/

/-- One entry of the errors array produced by request-shape validation. -/
structure FieldError where
  field : String
  message : String
deriving DecidableEq, Repr

/-- Result of request-shape validation ({isValid, errors}); the JS code
leaves errors undefined when empty, modelled as the empty list. -/
structure ShapeResult where
  isValid : Bool
  errors : List FieldError
deriving DecidableEq, Repr

/-- regulationContent: { text, metadata }; only text is read. -/
structure Content where
  text : Option String := none
deriving DecidableEq, Repr

/-- options: { requireCertainty, includeEvidence, checkVersionChanges }. -/
structure Options where
  requireCertainty : Option Nat := none
  includeEvidence : Option Bool := none
  checkVersionChanges : Option Bool := none
deriving DecidableEq, Repr

/-- A single validation request body. -/
structure ReqBody where
  regulationId : String
  regulationVersion : String
  regulationContent : Option Content := none
  validationLevel : Option Nat := none
  options : Options := {}
deriving DecidableEq, Repr

/-- A batch validation request body. -/
structure BatchBody where
  regulations : Option (List ReqBody) := none
  options : Options := {}
deriving DecidableEq, Repr

/-- Regulation record fetched from the store.  The three Boolean fields are
the outcomes of the classifier's case-insensitive regex tests on the title:
mandatory-language markers (shall, must, pursuant to, ...),
numeric-requirement markers (percentages, day/year counts, currency), and
technical/compliance vocabulary. -/
structure Regulation where
  regulation_id : String
  title : String
  titleHasComplexLanguage : Bool
  titleHasNumericRequirements : Bool
  titleHasTechnicalTerms : Bool
  category : String
  jurisdiction : String
  current_version : String

/-- A validation result.  evidence is an optional JS object; overrideReason
is stamped by processValidationResponse; individualResults entries are
(isValid, certaintyLevel, validationLevel) triples added by merging. -/
structure VResult where
  isValid : Bool
  certaintyLevel : Nat
  validationTimestamp : Nat
  validationLevel : Nat
  evidence : Option Obj := none
  overrideReason : Option String := none
  individualResults : Option (List (Bool × Nat × Nat)) := none

/-! ## Classifier (router.js, classifier module) -/

/-- Output of analyzeComplexity: the text-complexity score, the bucketed
content-size score, and the raw pattern flags. -/
structure ComplexityFactors where
  textComplexity : Nat
  contentSize : Nat
  hasComplexLanguage : Bool
  hasNumericRequirements : Bool
  hasTechnicalTerms : Bool
deriving DecidableEq, Repr

/-- analyzeComplexity: pattern checks on the title, a content-size bucket
from the title length, and a category baseline. -/
def analyzeComplexity (regulation : Regulation) : ComplexityFactors :=
  let hasComplexLanguage := regulation.titleHasComplexLanguage
  let hasNumericRequirements := regulation.titleHasNumericRequirements
  let hasTechnicalTerms := regulation.titleHasTechnicalTerms
  let contentSize : String :=
    if regulation.title.length > 100 then "large"
    else if regulation.title.length > 50 then "medium" else "small"
  let textComplexityScore :=
    (if hasComplexLanguage then 20 else 0) +
    (if hasNumericRequirements then 20 else 0) +
    (if hasTechnicalTerms then 20 else 0) +
    (if contentSize = "large" then 30 else if contentSize = "medium" then 15 else 0) +
    (if regulation.category = "Financial" then 20
     else if regulation.category = "Policy" then 15 else 10)
  { textComplexity := textComplexityScore
    contentSize :=
      if contentSize = "large" then 100 else if contentSize = "medium" then 50 else 25
    hasComplexLanguage
    hasNumericRequirements
    hasTechnicalTerms }

/-- analyzeChangeFrequency: static category table (75 / 50 / 25). -/
def analyzeChangeFrequency (regulation : Regulation) : Nat :=
  let highChangeCategories := ["Technology", "Financial", "Healthcare", "Cybersecurity"]
  let mediumChangeCategories := ["Academic", "Policy", "Admissions", "Student"]
  if highChangeCategories.contains regulation.category then 75
  else if mediumChangeCategories.contains regulation.category then 50
  else 25

/-- analyzeStructure: jurisdiction table (Federal 80, State 60,
Accreditation 70, else 40). -/
def analyzeStructure (regulation : Regulation) : Nat :=
  if regulation.jurisdiction = "Federal" then 80
  else if regulation.jurisdiction = "State" then 60
  else if regulation.jurisdiction = "Accreditation" then 70
  else 40

/-- calculateComplexityScore: weighted sum with weights 0.3 / 0.2 / 0.3 /
0.2, rounded and clamped to [0,100].  Computed exactly in tenths. -/
def calculateComplexityScore (complexityFactors : ComplexityFactors)
    (changeFrequency structuralComplexity : Nat) : Nat :=
  let scoreTenths :=
    3 * complexityFactors.textComplexity + 2 * complexityFactors.contentSize +
    3 * changeFrequency + 2 * structuralComplexity
  Nat.min 100 (Nat.max 0 ((scoreTenths + 5) / 10))

/-- The classifier's decision rule on the complexity score. -/
def determinedLevelOf (complexityScore : Nat) : Nat :=
  if complexityScore < 30 then 1 else if complexityScore < 70 then 2 else 3

/-- Classification result. -/
structure Classification where
  regulationId : String
  validationLevel : Nat
  complexityScore : Nat
  factorTextComplexity : Nat
  factorContentSize : Nat
  factorChangeFrequency : Nat
  factorStructuralComplexity : Nat
  validatorType : String

/-- classifyRegulation: factor scores, weighted score, decision rule,
escalation to the requested level, and validator type. -/
def classifyRegulation (regulation : Regulation) (requestedLevel : Nat) : Classification :=
  let complexityFactors := analyzeComplexity regulation
  let changeFrequency := analyzeChangeFrequency regulation
  let structuralComplexity := analyzeStructure regulation
  let complexityScore :=
    calculateComplexityScore complexityFactors changeFrequency structuralComplexity
  let determinedLevel := determinedLevelOf complexityScore
  let validationLevel := Nat.max requestedLevel determinedLevel
  { regulationId := regulation.regulation_id
    validationLevel
    complexityScore
    factorTextComplexity := complexityFactors.textComplexity
    factorContentSize := complexityFactors.contentSize
    factorChangeFrequency := changeFrequency
    factorStructuralComplexity := structuralComplexity
    validatorType :=
      if validationLevel = 1 then "text"
      else if validationLevel = 2 then "pattern" else "context" }

/-! ## Router (router.js) -/

/-- JS whitespace for the \s+ split in the basic validator's word count
(the common whitespace characters; the word count only feeds evidence). -/
def jsIsSpace (c : Char) : Bool :=
  c = ' ' || c = '\t' || c = '\n' || c = '\r'

/-- Count the maximal whitespace runs of a character list; the Boolean
argument records whether the previous character was whitespace. -/
def countWsRuns : List Char → Bool → Nat
  | [], _ => 0
  | c :: cs, prevWs =>
    let ws := jsIsSpace c
    (if ws && !prevWs then 1 else 0) + countWsRuns cs ws

/-- Length of the array produced by JS text.split(/\s+/): one more than the
number of maximal whitespace runs (leading/trailing runs contribute empty
array entries, and splitting the empty string yields one empty entry). -/
def jsSplitWhitespaceCount (s : String) : Nat := countWsRuns s.data false + 1

/-- JS regex test /[.,;:!?]/.test(text). -/
def jsHasPunctuation (s : String) : Bool :=
  s.data.any (fun c => ([',', '.', ';', ':', '!', '?'] : List Char).contains c)

/-- performBasicValidation: the local fallback validator.  isValid is bare
text existence, certainty is 2 when valid else 1, level is always 1, and
the evidence carries the text-existence flag and simple metrics. -/
def performBasicValidation (now : Nat) (regulation : Regulation)
    (regulationContent : Content) (options : Options) : VResult :=
  let contentText := jsOrStr regulationContent.text ""
  let isValid := contentText.length > 0
  let certaintyLevel := if isValid then 2 else 1
  { isValid
    certaintyLevel
    validationTimestamp := now
    validationLevel := 1
    evidence := some [
      ("textExists", .vBool (contentText.length > 0)),
      ("metrics", .vObj [
        ("contentLength", .vNum (Int.ofNat contentText.length)),
        ("wordCount", .vNum (Int.ofNat (jsSplitWhitespaceCount contentText))),
        ("hasPunctuation", .vBool (jsHasPunctuation contentText))])] }

/-- Payload sent to a remote validator Lambda. -/
structure ValidatorPayload where
  action : String
  regulationId : String
  regulationTitle : String
  regulationCategory : String
  regulationJurisdiction : String
  authorityVersion : String
  clientContent : Content
  options : Options

/-- Outcome of one synchronous remote invocation: a parsed success payload,
a Lambda FunctionError (rethrown and then caught), or a thrown transport
error (an unparsable success payload lands in the same catch block). -/
inductive RemoteOutcome where
  | ok (result : VResult)
  | functionError
  | transportError

/-- Version-control service response attached as versionStatus. -/
structure VersionStatus where
  hasChanges : Bool
  authorityVersion : String
deriving DecidableEq, Repr

/-- The environment of one invocation: the regulation store, which
validator ARNs are configured, the behaviour of remote invocation, the
version service payload, the clock, and the request context. -/
structure Env where
  getRegulation : String → Option Regulation
  level1ValidatorArn : Bool
  level2ValidatorArn : Bool
  level3ValidatorArn : Bool
  invoke : ValidatorPayload → RemoteOutcome
  versionStatusPayload : VersionStatus
  now : Nat
  requestId : String
  functionName : String

/-- Parameter object of routeToValidator. -/
structure RouteParams where
  classification : Classification
  regulation : Regulation
  regulationContent : Content
  validationLevel : Nat
  options : Options

/-- The payload routeToValidator sends to the selected validator. -/
def buildValidatorPayload (params : RouteParams) : ValidatorPayload :=
  { action := "validate"
    regulationId := params.regulation.regulation_id
    regulationTitle := params.regulation.title
    regulationCategory := params.regulation.category
    regulationJurisdiction := params.regulation.jurisdiction
    authorityVersion := params.regulation.current_version
    clientContent := params.regulationContent
    options := params.options }

/-- routeToValidator: pick the validator ARN for the requested level with
the 3 to 2 to 1 fallback chain; with no ARN at all run the local basic
validator; invoke the remote validator otherwise, and recover from any
failure (FunctionError or thrown error) with the local basic validator. -/
def routeToValidator (env : Env) (params : RouteParams) : VResult :=
  let validatorArn : Bool :=
    match params.validationLevel with
    | 1 => env.level1ValidatorArn
    | 2 => env.level2ValidatorArn || env.level1ValidatorArn
    | 3 => env.level3ValidatorArn || env.level2ValidatorArn || env.level1ValidatorArn
    | _ => env.level1ValidatorArn
  if !validatorArn then
    performBasicValidation env.now params.regulation params.regulationContent params.options
  else
    match env.invoke (buildValidatorPayload params) with
    | .ok result => result
    | .functionError =>
      performBasicValidation env.now params.regulation params.regulationContent params.options
    | .transportError =>
      performBasicValidation env.now params.regulation params.regulationContent params.options

/-! ## Aggregator (aggregator.js) -/

/-- Math.min over a spread array (the empty case is unreachable at the one
call site, which guards for at least two elements). -/
def natMinList : List Nat → Nat
  | [] => 0
  | x :: xs => xs.foldl Nat.min x

/-- Math.max over a spread array (same remark as natMinList). -/
def natMaxList : List Nat → Nat
  | [] => 0
  | x :: xs => xs.foldl Nat.max x

/-- One step of the evidence merge: fold the entries of one validator's
evidence into the accumulated merged evidence.  A key whose current stored
value is truthy is resolved by suffixing the incoming key with the 1-based
validator index; otherwise the incoming value is stored under the plain
key (overwriting a falsy stored value). -/
def mergeEvidenceInto (mergedEvidence : Obj) (index : Nat) (result : VResult) : Obj :=
  match result.evidence with
  | none => mergedEvidence
  | some ev =>
    ev.foldl (fun m kv =>
      let evidenceKey :=
        match objGet m kv.1 with
        | some v => if truthy v then kv.1 ++ "_validator" ++ toString (index + 1) else kv.1
        | none => kv.1
      objSet m evidenceKey kv.2) mergedEvidence

/-- mergeValidationResults: sentinel for zero inputs, pass-through for one,
and for two or more the conjunctive validity, minimum certainty, maximum
level, latest timestamp, merged evidence with validatorCount and
validatorsAgreed appended, and an individualResults summary. -/
def mergeValidationResults (now : Nat) (results : List VResult) : VResult :=
  match results with
  | [] =>
    { isValid := false
      certaintyLevel := 0
      validationTimestamp := now
      validationLevel := 0
      evidence := some [] }
  | [r] => r
  | rs =>
    let isValid := rs.all (fun result => result.isValid)
    let minCertainty := natMinList (rs.map (fun result => result.certaintyLevel))
    let maxValidationLevel := natMaxList (rs.map (fun result => result.validationLevel))
    let timestamps := rs.map (fun result => result.validationTimestamp)
    let latestTimestamp := if timestamps.isEmpty then now else natMaxList timestamps
    let mergedEvidence := (rs.enum).foldl (fun m p => mergeEvidenceInto m p.1 p.2) []
    let mergedEvidence := objSet mergedEvidence "validatorCount" (.vNum (Int.ofNat rs.length))
    let mergedEvidence := objSet mergedEvidence "validatorsAgreed" (.vBool isValid)
    { isValid
      certaintyLevel := minCertainty
      validationTimestamp := latestTimestamp
      validationLevel := maxValidationLevel
      evidence := some mergedEvidence
      individualResults := some (rs.map (fun r => (r.isValid, r.certaintyLevel, r.validationLevel))) }

/-- processValidationResponse: the certainty gate.  Downgrades isValid and
stamps overrideReason when a valid result's certainty is below the
caller's requireCertainty (default 1); strips evidence when
includeEvidence (default true) is false. -/
def processValidationResponse (validationResult : VResult) (options : Options) : VResult :=
  let requireCertainty := options.requireCertainty.getD 1
  let includeEvidence := options.includeEvidence.getD true
  let processedResult := validationResult
  let processedResult :=
    if processedResult.isValid && processedResult.certaintyLevel < requireCertainty then
      { processedResult with isValid := false, overrideReason := some "insufficient_certainty" }
    else processedResult
  if !includeEvidence then { processedResult with evidence := none } else processedResult

/-- data field of one batch item ({ data: { validationResult } }). -/
structure ItemData where
  validationResult : Option VResult := none

/-- One entry of the results array given to aggregateResults: a parsed
single-validation response body carrying either a data object or an error
object (an absent/null entry behaves exactly like one with neither). -/
structure BatchResultItem where
  data : Option ItemData := none
  error : Option String := none

/-- Batch summary; averageCertainty is kept in tenths (one decimal place),
and successRate is optional because the zero-length branch of
aggregateResults omits it. -/
structure AggregateSummary where
  totalCount : Nat
  successCount : Nat
  failureCount : Nat
  averageCertaintyTenths : Nat
  successRate : Option Nat

/-- Return value of aggregateResults. -/
structure AggregatedResults where
  summary : AggregateSummary
  results : List BatchResultItem

/-- Mutable counters of the aggregateResults forEach loop. -/
structure AggCounts where
  successCount : Nat := 0
  failureCount : Nat := 0
  totalCertainty : Nat := 0
  validCertaintyCount : Nat := 0

/-- aggregateResults: count successes and failures (an item with an error
object and no validation result counts as a failure), average certainty
over items whose certaintyLevel is truthy (nonzero), and compute the
rounded success percentage.  The zero-length branch returns the all-zero
summary without a successRate field. -/
def aggregateResults (results : List BatchResultItem) : AggregatedResults :=
  if results.isEmpty then
    { summary :=
        { totalCount := 0
          successCount := 0
          failureCount := 0
          averageCertaintyTenths := 0
          successRate := none }
      results := [] }
  else
    let counts := results.foldl (fun (acc : AggCounts) result =>
      match result.data.bind (fun d => d.validationResult) with
      | some vr =>
        let acc :=
          if vr.isValid then { acc with successCount := acc.successCount + 1 }
          else { acc with failureCount := acc.failureCount + 1 }
        if vr.certaintyLevel ≠ 0 then
          { acc with totalCertainty := acc.totalCertainty + vr.certaintyLevel
                     validCertaintyCount := acc.validCertaintyCount + 1 }
        else acc
      | none =>
        match result.error with
        | some _ => { acc with failureCount := acc.failureCount + 1 }
        | none => acc) {}
    let averageCertaintyTenths :=
      if counts.validCertaintyCount > 0 then
        jsRoundRatio (10 * counts.totalCertainty) counts.validCertaintyCount
      else 0
    { summary :=
        { totalCount := results.length
          successCount := counts.successCount
          failureCount := counts.failureCount
          averageCertaintyTenths
          successRate := some (jsRoundRatio (100 * counts.successCount) results.length) }
      results }

/-! ## Request-shape validation (request validation module) -/

/-- Split a character list at every dot (the splitting underlying the
regex ^\d+\.\d+\.\d+$; like JS split, adjacent dots give empty groups). -/
def splitOnDot : List Char → List (List Char)
  | [] => [[]]
  | c :: rest =>
    if c = '.' then [] :: splitOnDot rest
    else
      match splitOnDot rest with
      | [] => [[c]]
      | group :: groups => (c :: group) :: groups

/-- Regex test ^\d+\.\d+\.\d+$ preceded by the falsy-input guard: exactly
three dot-separated, non-empty, all-digit groups. -/
def isValidSemanticVersion (version : String) : Bool :=
  if version = "" then false
  else
    match splitOnDot version.data with
    | [major, minor, patch] =>
      !major.isEmpty && major.all Char.isDigit &&
      !minor.isEmpty && minor.all Char.isDigit &&
      !patch.isEmpty && patch.all Char.isDigit
    | _ => false

/-- JS truthiness of an optional string field (absent and empty are falsy). -/
def jsTruthyOptStr (o : Option String) : Bool :=
  match o with
  | none => false
  | some s => s != ""

/-- validateValidationRequest: required fields, optional enum ranges, and
the semantic-version format, with errors accumulated in source order. -/
def validateValidationRequest (request : ReqBody) : ShapeResult :=
  let errors : List FieldError :=
    (if request.regulationId == "" then
      [{ field := "regulationId", message := "Regulation ID is required" }] else [])
    ++ (if request.regulationVersion == "" then
      [{ field := "regulationVersion", message := "Regulation version is required" }] else [])
    ++ (match request.regulationContent with
        | none =>
          [{ field := "regulationContent", message := "Regulation content is required" }]
        | some content =>
          if jsTruthyOptStr content.text then []
          else [{ field := "regulationContent.text", message := "Regulation text is required" }])
    ++ (match request.validationLevel with
        | none => []
        | some lvl =>
          if ([1, 2, 3] : List Nat).contains lvl then []
          else [{ field := "validationLevel", message := "Validation level must be 1, 2, or 3" }])
    ++ (match request.options.requireCertainty with
        | none => []
        | some rc =>
          if ([1, 2, 3, 4, 5] : List Nat).contains rc then []
          else [{ field := "options.requireCertainty",
                  message := "Required certainty must be between 1 and 5" }])
    ++ (if request.regulationVersion != "" &&
           !(isValidSemanticVersion request.regulationVersion) then
      [{ field := "regulationVersion",
         message := "Regulation version must be in semantic versioning format (e.g., 1.2.3)" }]
      else [])
  { isValid := errors.isEmpty, errors }

/-- validateBatchValidationRequest: the regulations array must exist, be
non-empty and hold at most 50 entries, and every entry must itself pass
validateValidationRequest (errors are prefixed with the entry index). -/
def validateBatchValidationRequest (request : BatchBody) : ShapeResult :=
  match request.regulations with
  | none =>
    { isValid := false
      errors := [{ field := "regulations", message := "Regulations must be an array" }] }
  | some regulations =>
    let errors : List FieldError :=
      (if regulations.length = 0 then
        [{ field := "regulations", message := "Regulations array cannot be empty" }] else [])
      ++ (if regulations.length > 50 then
        [{ field := "regulations", message := "Batch size cannot exceed 50 regulations" }] else [])
      ++ (regulations.enum.foldl (fun acc p =>
          acc ++ (validateValidationRequest p.2).errors.map (fun e =>
            { field := "regulations[" ++ toString p.1 ++ "]." ++ e.field
              message := e.message })) [])
    { isValid := errors.isEmpty, errors }

/-! ## Orchestrator (orchestrator Lambda handlers) -/

/-- Attestation certificate record created by generateCertificate;
timestamps are day-resolution instants (expiry is issuance plus 90 days). -/
structure Certificate where
  certificateId : String
  validationId : String
  regulationId : String
  regulationVersion : String
  issuedAt : Nat
  expiresAt : Nat
  validatedBy : String
  cryptographicSignature : String
  certificateUrl : String

/-- Parameter object of generateCertificate. -/
structure CertificateParams where
  regulationId : String
  regulationVersion : String
  validationResult : VResult
  validatedBy : String
  requestId : String

/-- generateCertificate: build the certificate record (the database write
and its audit event are side effects outside the data flow). -/
def generateCertificate (params : CertificateParams) (env : Env) : Certificate :=
  let certificateId :=
    "cert-" ++ params.regulationId ++ "-" ++ params.regulationVersion ++ "-" ++ toString env.now
  { certificateId
    validationId := params.requestId
    regulationId := params.regulationId
    regulationVersion := params.regulationVersion
    issuedAt := env.now
    expiresAt := env.now + 90
    validatedBy := params.validatedBy
    cryptographicSignature := "placeholder"
    certificateUrl := "/api/certificates/" ++ certificateId }

/-- The data object of a successful single-validation response. -/
structure ResponsePayload where
  requestId : String
  timestamp : Nat
  regulationId : String
  regulationVersion : String
  authorityVersion : String
  validationResult : VResult
  versionStatus : Option VersionStatus := none
  attestationCertificate : Option Certificate := none

/-- Responses of the single-validation handler: 200 success, 400
INVALID_REQUEST, or 404 REGULATION_NOT_FOUND. -/
inductive OrchResponse where
  | success (payload : ResponsePayload)
  | invalidRequest (errors : List FieldError)
  | notFound (regulationId : String)

/-- handleValidationRequest: shape-validate (via the validateRequest
dispatcher, which for the request type validation is exactly
validateValidationRequest), fetch the regulation, classify, route, attach
versionStatus when requested, and attach an attestation certificate only
when the routed result is valid with certainty at least 4.  The routed
result is placed in the response unchanged. -/
def handleValidationRequest (body : ReqBody) (env : Env) : OrchResponse :=
  let validationResult := validateValidationRequest body
  if !validationResult.isValid then
    .invalidRequest validationResult.errors
  else
    match env.getRegulation body.regulationId with
    | none => .notFound body.regulationId
    | some regulation =>
      let validationLevel := body.validationLevel.getD 1
      let options := body.options
      let classification := classifyRegulation regulation validationLevel
      let validationResponse := routeToValidator env
        { classification
          regulation
          regulationContent := body.regulationContent.getD {}
          validationLevel
          options }
      let versionStatus :=
        if options.checkVersionChanges.getD false then some env.versionStatusPayload else none
      .success
        { requestId := env.requestId
          timestamp := env.now
          regulationId := body.regulationId
          regulationVersion := body.regulationVersion
          authorityVersion := regulation.current_version
          validationResult := validationResponse
          versionStatus
          attestationCertificate :=
            if validationResponse.isValid && validationResponse.certaintyLevel ≥ 4 then
              some (generateCertificate
                { regulationId := body.regulationId
                  regulationVersion := body.regulationVersion
                  validationResult := validationResponse
                  validatedBy := env.functionName
                  requestId := env.requestId } env)
            else none }

/-- Responses of the batch handler: 400 INVALID_REQUEST, or 200 with the
per-item parsed response bodies in input order. -/
inductive BatchResponse where
  | invalidRequest (errors : List FieldError)
  | success (results : List OrchResponse)

/-- handleBatchValidationRequest: shape-validate the batch, then run an
independent single-validation request per entry (validationLevel defaulted
with JS ||, batch options shared) and return the per-item outcomes. -/
def handleBatchValidationRequest (body : BatchBody) (env : Env) : BatchResponse :=
  let validationResult := validateBatchValidationRequest body
  if !validationResult.isValid then
    .invalidRequest validationResult.errors
  else
    let regulations := body.regulations.getD []
    .success (regulations.map (fun regulation =>
      handleValidationRequest
        { regulationId := regulation.regulationId
          regulationVersion := regulation.regulationVersion
          regulationContent := regulation.regulationContent
          validationLevel := some (jsOrNat regulation.validationLevel 1)
          options := body.options } env))

/-! ## Response accessors used in statements -/

/-- The validationResult of a success response, if the response is one. -/
def successValidationResult : OrchResponse → Option VResult
  | .success p => some p.validationResult
  | _ => none

/-- The attestation certificate of a success response, if any. -/
def attestationOf : OrchResponse → Option Certificate
  | .success p => p.attestationCertificate
  | _ => none

/-- Whether a response is the 400 INVALID_REQUEST error. -/
def isInvalidRequestResponse : OrchResponse → Bool
  | .invalidRequest _ => true
  | _ => false

/-- Whether the request body's content text is absent or empty (falsy). -/
def contentTextMissing (body : ReqBody) : Bool :=
  match body.regulationContent with
  | none => true
  | some content => !(jsTruthyOptStr content.text)

/-! ## Concrete instances used by witnesses and counterexamples -/

/-- A plain regulation on file under id REG-1. -/
def c1Regulation : Regulation :=
  { regulation_id := "REG-1", title := "Grading policy", titleHasComplexLanguage := false,
    titleHasNumericRequirements := false, titleHasTechnicalTerms := false,
    category := "Other", jurisdiction := "Local", current_version := "1.0.0" }

/-- A remote validator verdict: valid, but with certainty only 2. -/
def c1RoutedResult : VResult :=
  { isValid := true, certaintyLevel := 2, validationTimestamp := 1000, validationLevel := 1,
    evidence := some [] }

/-- A well-formed request that demands certainty at least 3. -/
def c1Body : ReqBody :=
  { regulationId := "REG-1", regulationVersion := "1.0.0",
    regulationContent := some { text := some "Local copy of the grading policy." },
    validationLevel := some 1, options := { requireCertainty := some 3 } }

/-- Environment whose store knows REG-1 and whose level-1 validator
answers with c1RoutedResult. -/
def c1Env : Env :=
  { getRegulation := fun id => if id == "REG-1" then some c1Regulation else none
    level1ValidatorArn := true, level2ValidatorArn := false, level3ValidatorArn := false
    invoke := fun _ => .ok c1RoutedResult
    versionStatusPayload := { hasChanges := false, authorityVersion := "1.0.0" }
    now := 1000, requestId := "req-1", functionName := "orchestrator" }

/-- A regulation on file under id R1. -/
def c2Regulation : Regulation :=
  { regulation_id := "R1", title := "Records retention schedule",
    titleHasComplexLanguage := false, titleHasNumericRequirements := false,
    titleHasTechnicalTerms := false, category := "Other", jurisdiction := "Local",
    current_version := "1.2.4" }

/-- A request for R1, version 1.2.3, level 1, with empty content text. -/
def c2Body : ReqBody :=
  { regulationId := "R1", regulationVersion := "1.2.3",
    regulationContent := some { text := some "" }, validationLevel := some 1 }

/-- Environment whose store knows R1. -/
def c2Env : Env :=
  { getRegulation := fun id => if id == "R1" then some c2Regulation else none
    level1ValidatorArn := true, level2ValidatorArn := false, level3ValidatorArn := false
    invoke := fun _ => .ok c1RoutedResult
    versionStatusPayload := { hasChanges := false, authorityVersion := "1.2.4" }
    now := 2000, requestId := "req-2", functionName := "orchestrator" }

/-- A valid, highly certain validator result. -/
def c3ResultA : VResult :=
  { isValid := true, certaintyLevel := 5, validationTimestamp := 10, validationLevel := 1,
    evidence := some [] }

/-- An invalid, low-certainty validator result. -/
def c3ResultB : VResult :=
  { isValid := false, certaintyLevel := 2, validationTimestamp := 20, validationLevel := 2,
    evidence := some [] }

/-- First merge input carrying a falsy evidence value under textExists. -/
def c4ResultFirst : VResult :=
  { isValid := true, certaintyLevel := 2, validationTimestamp := 10, validationLevel := 1,
    evidence := some [("textExists", .vBool false)] }

/-- Second merge input carrying a truthy value under the same key. -/
def c4ResultSecond : VResult :=
  { isValid := true, certaintyLevel := 3, validationTimestamp := 20, validationLevel := 1,
    evidence := some [("textExists", .vBool true)] }

/-- First merge input carrying a truthy evidence value under source. -/
def c4TruthyFirst : VResult :=
  { isValid := true, certaintyLevel := 4, validationTimestamp := 10, validationLevel := 1,
    evidence := some [("source", .vStr "levelA")] }

/-- Second merge input colliding on source with another truthy value. -/
def c4TruthySecond : VResult :=
  { isValid := true, certaintyLevel := 4, validationTimestamp := 20, validationLevel := 2,
    evidence := some [("source", .vStr "levelB")] }

/-- Environment with no validator ARN configured at any level. -/
def c6Env : Env :=
  { getRegulation := fun _ => none
    level1ValidatorArn := false, level2ValidatorArn := false, level3ValidatorArn := false
    invoke := fun _ => .transportError
    versionStatusPayload := { hasChanges := false, authorityVersion := "1.0.0" }
    now := 3000, requestId := "req-3", functionName := "orchestrator" }

/-- Routing parameters for a level-1 request with non-empty text. -/
def c6Params : RouteParams :=
  { classification := classifyRegulation c1Regulation 1
    regulation := c1Regulation
    regulationContent := { text := some "Some local text." }
    validationLevel := 1
    options := {} }

/-- Environment whose configured level-1 validator fails with a Lambda
FunctionError on every invocation. -/
def c7Env : Env :=
  { getRegulation := fun _ => none
    level1ValidatorArn := true, level2ValidatorArn := false, level3ValidatorArn := false
    invoke := fun _ => .functionError
    versionStatusPayload := { hasChanges := false, authorityVersion := "1.0.0" }
    now := 4000, requestId := "req-4", functionName := "orchestrator" }

/-- A 126-character Financial/Federal title that fires all three pattern
tests: it contains the mandatory-language markers shall and pursuant to,
the numeric-requirement marker 30 days, and the technical terms compliance
and standards. -/
def c9Regulation : Regulation :=
  { regulation_id := "REG-FIN-30"
    title := "Pursuant to federal compliance standards, all participating institutions shall submit audited financial reports within 30 days"
    titleHasComplexLanguage := true
    titleHasNumericRequirements := true
    titleHasTechnicalTerms := true
    category := "Financial"
    jurisdiction := "Federal"
    current_version := "2.0.0" }

/-! ## Helper lemmas -/

lemma foldlMin_le_init (l : List Nat) (a : Nat) : l.foldl Nat.min a ≤ a := by
  induction l generalizing a with
  | nil => exact Nat.le_refl a
  | cons c cs ih => exact Nat.le_trans (ih (Nat.min a c)) (Nat.min_le_left a c)

lemma foldlMin_le_mem : ∀ (l : List Nat) (a x : Nat), x ∈ l → l.foldl Nat.min a ≤ x := by
  intro l
  induction l with
  | nil => intro a x h; cases h
  | cons c cs ih =>
    intro a x h
    rcases List.mem_cons.mp h with rfl | hx
    · exact Nat.le_trans (foldlMin_le_init cs (Nat.min a x)) (Nat.min_le_right a x)
    · exact ih (Nat.min a c) x hx

lemma foldlMin_attained (l : List Nat) (a : Nat) :
    l.foldl Nat.min a = a ∨ l.foldl Nat.min a ∈ l := by
  induction l generalizing a with
  | nil => exact Or.inl rfl
  | cons c cs ih =>
    rcases ih (Nat.min a c) with h | h
    · rcases min_choice a c with hm | hm
      · exact Or.inl (h.trans hm)
      · exact Or.inr (List.mem_cons.mpr (Or.inl (h.trans hm)))
    · exact Or.inr (List.mem_cons.mpr (Or.inr h))

lemma natMinList_le_of_mem (l : List Nat) (x : Nat) (h : x ∈ l) : natMinList l ≤ x := by
  cases l with
  | nil => cases h
  | cons c cs =>
    rcases List.mem_cons.mp h with rfl | hx
    · show cs.foldl Nat.min x ≤ x
      exact foldlMin_le_init cs x
    · show cs.foldl Nat.min c ≤ x
      exact foldlMin_le_mem cs c x hx

lemma natMinList_mem (l : List Nat) (h : l ≠ []) : natMinList l ∈ l := by
  cases l with
  | nil => exact absurd rfl h
  | cons c cs =>
    show cs.foldl Nat.min c ∈ c :: cs
    rcases foldlMin_attained cs c with hm | hm
    · exact List.mem_cons.mpr (Or.inl hm)
    · exact List.mem_cons.mpr (Or.inr hm)

lemma foldlMax_init_le (l : List Nat) (a : Nat) : a ≤ l.foldl Nat.max a := by
  induction l generalizing a with
  | nil => exact Nat.le_refl a
  | cons c cs ih => exact Nat.le_trans (Nat.le_max_left a c) (ih (Nat.max a c))

lemma foldlMax_mem_le : ∀ (l : List Nat) (a x : Nat), x ∈ l → x ≤ l.foldl Nat.max a := by
  intro l
  induction l with
  | nil => intro a x h; cases h
  | cons c cs ih =>
    intro a x h
    rcases List.mem_cons.mp h with rfl | hx
    · exact Nat.le_trans (Nat.le_max_right a x) (foldlMax_init_le cs (Nat.max a x))
    · exact ih (Nat.max a c) x hx

lemma foldlMax_attained (l : List Nat) (a : Nat) :
    l.foldl Nat.max a = a ∨ l.foldl Nat.max a ∈ l := by
  induction l generalizing a with
  | nil => exact Or.inl rfl
  | cons c cs ih =>
    rcases ih (Nat.max a c) with h | h
    · rcases max_choice a c with hm | hm
      · exact Or.inl (h.trans hm)
      · exact Or.inr (List.mem_cons.mpr (Or.inl (h.trans hm)))
    · exact Or.inr (List.mem_cons.mpr (Or.inr h))

lemma natMaxList_mem_le (l : List Nat) (x : Nat) (h : x ∈ l) : x ≤ natMaxList l := by
  cases l with
  | nil => cases h
  | cons c cs =>
    rcases List.mem_cons.mp h with rfl | hx
    · show x ≤ cs.foldl Nat.max x
      exact foldlMax_init_le cs x
    · show x ≤ cs.foldl Nat.max c
      exact foldlMax_mem_le cs c x hx

lemma natMaxList_mem (l : List Nat) (h : l ≠ []) : natMaxList l ∈ l := by
  cases l with
  | nil => exact absurd rfl h
  | cons c cs =>
    show cs.foldl Nat.max c ∈ c :: cs
    rcases foldlMax_attained cs c with hm | hm
    · exact List.mem_cons.mpr (Or.inl hm)
    · exact List.mem_cons.mpr (Or.inr hm)

lemma objGet_objSet_self : ∀ (o : Obj) (k : String) (v : EvValue),
    objGet (objSet o k v) k = some v := by
  intro o k v
  induction o with
  | nil => simp [objSet, objGet]
  | cons p rest ih =>
    obtain ⟨k2, w⟩ := p
    by_cases h2 : k2 = k
    · subst h2
      simp [objSet, objGet]
    · simp [objSet, objGet, beq_iff_eq, h2, ih]

lemma objGet_objSet_ne : ∀ (o : Obj) (k k2 : String) (v : EvValue), k2 ≠ k →
    objGet (objSet o k v) k2 = objGet o k2 := by
  intro o k k2 v h
  induction o with
  | nil => simp [objSet, objGet, beq_iff_eq, Ne.symm h]
  | cons p rest ih =>
    obtain ⟨k3, w⟩ := p
    by_cases h3 : k3 = k
    · subst h3
      simp [objSet, objGet, beq_iff_eq, Ne.symm h, h]
    · by_cases h4 : k3 = k2
      · subst h4
        simp [objSet, objGet, beq_iff_eq, h3]
      · simp [objSet, objGet, beq_iff_eq, h3, h4, ih]

lemma validatorSuffix_ne_self (k : String) : k ++ "_validator2" ≠ k := by
  intro h
  have hl := congrArg String.length h
  have h11 : ("_validator2" : String).length = 11 := rfl
  rw [String.length_append, h11] at hl
  omega

lemma validatorSuffix_ne_validatorCount (k : String) :
    k ++ "_validator2" ≠ "validatorCount" := by
  intro h
  have hd := congrArg (fun s : String => s.data.getLast?) h
  simp only [String.data_append] at hd
  rw [List.getLast?_append_of_ne_nil] at hd
  · simp at hd
  · simp

lemma validatorSuffix_ne_validatorsAgreed (k : String) :
    k ++ "_validator2" ≠ "validatorsAgreed" := by
  intro h
  have hd := congrArg (fun s : String => s.data.getLast?) h
  simp only [String.data_append] at hd
  rw [List.getLast?_append_of_ne_nil] at hd
  · simp at hd
  · simp

lemma string_length_pos_iff (s : String) : 0 < s.length ↔ s ≠ "" := by
  have hdata : (s = "") ↔ (s.data = []) := by
    rw [String.ext_iff]
  constructor
  · intro hl he
    rw [he] at hl
    simp [String.length] at hl
  · intro hne
    by_contra hz
    have h0 : s.length = 0 := by omega
    have : s.data = [] := List.length_eq_zero.mp h0
    exact hne (hdata.mpr this)

/-! ## Claim theorems -/

/-- Claim C1, counterexample: the request c1Body demands certainty 3 and
the validator answers valid with certainty 2, yet the orchestrator's
success response carries that result with isValid still true and no
overrideReason - the certainty gate is not applied between routing and
responding, contradicting the claim. -/
theorem certaintyGate_not_applied_counterexample :
    successValidationResult (handleValidationRequest c1Body c1Env) = some c1RoutedResult
    ∧ c1Body.options.requireCertainty = some 3
    ∧ c1RoutedResult.isValid = true
    ∧ c1RoutedResult.certaintyLevel = 2
    ∧ c1RoutedResult.overrideReason = none :=
  ⟨rfl, rfl, rfl, rfl, rfl⟩

/-- Claim C1, amended: processValidationResponse does implement the
certainty gate (a valid result whose certainty is below requireCertainty,
default 1, is downgraded to invalid with overrideReason
insufficient_certainty), but handleValidationRequest never invokes it: the
validationResult of every success response is exactly the router's result,
unchanged. -/
theorem certaintyGate_defined_but_unused :
    (∀ (validationResult : VResult) (options : Options),
      validationResult.isValid = true →
      validationResult.certaintyLevel < options.requireCertainty.getD 1 →
      (processValidationResponse validationResult options).isValid = false
      ∧ (processValidationResponse validationResult options).overrideReason
          = some "insufficient_certainty")
    ∧ (∀ (body : ReqBody) (env : Env) (regulation : Regulation),
      (validateValidationRequest body).isValid = true →
      env.getRegulation body.regulationId = some regulation →
      successValidationResult (handleValidationRequest body env)
        = some (routeToValidator env
            { classification := classifyRegulation regulation (body.validationLevel.getD 1)
              regulation
              regulationContent := body.regulationContent.getD {}
              validationLevel := body.validationLevel.getD 1
              options := body.options })) := by
  constructor
  · intro validationResult options hvalid hlt
    have hcond : (validationResult.isValid
        && decide (validationResult.certaintyLevel < options.requireCertainty.getD 1)) = true := by
      simp [hvalid, hlt]
    by_cases hie : options.includeEvidence.getD true
    · simp [processValidationResponse, hcond, hie]
    · simp [processValidationResponse, hcond, hie]
  · intro body env regulation hshape hreg
    simp [handleValidationRequest, hshape, hreg, successValidationResult]

/-- Claim C1, witness: the gate downgrades c1RoutedResult under
requireCertainty 3, and the orchestrator responds with the raw routed
result for c1Body. -/
theorem certaintyGate_defined_but_unused_witness :
    (processValidationResponse c1RoutedResult { requireCertainty := some 3 }).isValid = false
    ∧ successValidationResult (handleValidationRequest c1Body c1Env)
        = some (routeToValidator c1Env
            { classification := classifyRegulation c1Regulation 1
              regulation := c1Regulation
              regulationContent := c1Body.regulationContent.getD {}
              validationLevel := 1
              options := c1Body.options }) :=
  ⟨(certaintyGate_defined_but_unused.1 c1RoutedResult { requireCertainty := some 3 }
      rfl (by decide)).1,
   certaintyGate_defined_but_unused.2 c1Body c1Env c1Regulation rfl rfl⟩

/-- Claim C2, counterexample: the request for regulation R1, version
1.2.3, level 1 with content text of length 0 is rejected by request-shape
validation with a 400 INVALID_REQUEST error, so no success response (and
in particular no isValid=false success payload) is ever produced,
contradicting the claim. -/
theorem emptyText_no_success_counterexample :
    handleValidationRequest c2Body c2Env
      = .invalidRequest
          [{ field := "regulationContent.text", message := "Regulation text is required" }]
    ∧ successValidationResult (handleValidationRequest c2Body c2Env) = none
    ∧ c2Body.regulationVersion = "1.2.3"
    ∧ c2Body.validationLevel = some 1
    ∧ c2Env.getRegulation c2Body.regulationId = some c2Regulation :=
  ⟨rfl, rfl, rfl, rfl, rfl⟩

/-- Claim C2, amended: any validation request whose content text is absent
or empty is answered with the 400-class invalid-request error (empty text
is falsy, so the required-text shape check fails), and consequently no
attestation certificate is attached. -/
theorem emptyText_rejected_with_400 (body : ReqBody) (env : Env)
    (h : contentTextMissing body = true) :
    isInvalidRequestResponse (handleValidationRequest body env) = true
    ∧ attestationOf (handleValidationRequest body env) = none := by
  have hshape : (validateValidationRequest body).isValid = false := by
    unfold validateValidationRequest
    rw [List.isEmpty_eq_false]
    intro hE
    cases hc : body.regulationContent with
    | none => simp [hc, List.append_eq_nil] at hE
    | some content =>
      have htext : jsTruthyOptStr content.text = false := by
        simpa [contentTextMissing, hc] using h
      simp [hc, htext, List.append_eq_nil] at hE
  constructor
  · simp [handleValidationRequest, hshape, isInvalidRequestResponse]
  · simp [handleValidationRequest, hshape, attestationOf]

/-- Claim C2, witness: the concrete empty-text request is rejected with
the invalid-request error and carries no attestation. -/
theorem emptyText_rejected_with_400_witness :
    isInvalidRequestResponse (handleValidationRequest c2Body c2Env) = true
    ∧ attestationOf (handleValidationRequest c2Body c2Env) = none :=
  emptyText_rejected_with_400 c2Body c2Env rfl

/-- Claim C3: for every list of two or more validation results,
mergeValidationResults returns the conjunction of the inputs' isValid, the
minimum certaintyLevel (a lower bound that is attained), the maximum
validationLevel, and the latest input timestamp; in particular merging
{isValid true, certainty 5} with {isValid false, certainty 2} yields
isValid false with certaintyLevel 2. -/
theorem mergeValidationResults_merge_rules :
    (∀ (now : Nat) (a b : VResult) (t : List VResult),
      (mergeValidationResults now (a :: b :: t)).isValid
          = (a :: b :: t).all (fun r => r.isValid)
      ∧ (∀ r, r ∈ a :: b :: t →
          (mergeValidationResults now (a :: b :: t)).certaintyLevel ≤ r.certaintyLevel)
      ∧ (∃ r, r ∈ a :: b :: t ∧
          (mergeValidationResults now (a :: b :: t)).certaintyLevel = r.certaintyLevel)
      ∧ (∀ r, r ∈ a :: b :: t →
          r.validationLevel ≤ (mergeValidationResults now (a :: b :: t)).validationLevel)
      ∧ (∃ r, r ∈ a :: b :: t ∧
          (mergeValidationResults now (a :: b :: t)).validationLevel = r.validationLevel)
      ∧ (∀ r, r ∈ a :: b :: t →
          r.validationTimestamp ≤ (mergeValidationResults now (a :: b :: t)).validationTimestamp)
      ∧ (∃ r, r ∈ a :: b :: t ∧
          (mergeValidationResults now (a :: b :: t)).validationTimestamp
            = r.validationTimestamp))
    ∧ (mergeValidationResults 0 [c3ResultA, c3ResultB]).isValid = false
    ∧ (mergeValidationResults 0 [c3ResultA, c3ResultB]).certaintyLevel = 2 := by
  refine ⟨fun now a b t => ?_, rfl, rfl⟩
  have hcert : (mergeValidationResults now (a :: b :: t)).certaintyLevel
      = natMinList ((a :: b :: t).map (fun r => r.certaintyLevel)) := rfl
  have hlvl : (mergeValidationResults now (a :: b :: t)).validationLevel
      = natMaxList ((a :: b :: t).map (fun r => r.validationLevel)) := rfl
  have hts : (mergeValidationResults now (a :: b :: t)).validationTimestamp
      = natMaxList ((a :: b :: t).map (fun r => r.validationTimestamp)) := rfl
  refine ⟨rfl, ?_, ?_, ?_, ?_, ?_, ?_⟩
  · intro r hr
    rw [hcert]
    exact natMinList_le_of_mem _ _ (List.mem_map_of_mem _ hr)
  · have hne : (a :: b :: t).map (fun r => r.certaintyLevel) ≠ [] := by simp
    obtain ⟨r, hr, heq⟩ := List.mem_map.mp (natMinList_mem _ hne)
    exact ⟨r, hr, by rw [hcert, heq]⟩
  · intro r hr
    rw [hlvl]
    exact natMaxList_mem_le _ _ (List.mem_map_of_mem _ hr)
  · have hne : (a :: b :: t).map (fun r => r.validationLevel) ≠ [] := by simp
    obtain ⟨r, hr, heq⟩ := List.mem_map.mp (natMaxList_mem _ hne)
    exact ⟨r, hr, by rw [hlvl, heq]⟩
  · intro r hr
    rw [hts]
    exact natMaxList_mem_le _ _ (List.mem_map_of_mem _ hr)
  · have hne : (a :: b :: t).map (fun r => r.validationTimestamp) ≠ [] := by simp
    obtain ⟨r, hr, heq⟩ := List.mem_map.mp (natMaxList_mem _ hne)
    exact ⟨r, hr, by rw [hts, heq]⟩

/-- Claim C3, witness: the merged certainty of the concrete pair is
bounded by the low-certainty input. -/
theorem mergeValidationResults_merge_rules_witness :
    (mergeValidationResults 0 [c3ResultA, c3ResultB]).certaintyLevel
      ≤ c3ResultB.certaintyLevel :=
  (mergeValidationResults_merge_rules.1 0 c3ResultA c3ResultB []).2.1 c3ResultB (by simp)

/-- Claim C4, counterexample: merging two results that both carry the key
textExists, the first with the falsy value false, silently overwrites the
first value - the merged evidence holds only the second value under the
plain key and nothing under textExists_validator2, contradicting the claim
that colliding values are never silently overwritten. -/
theorem mergeEvidence_overwrite_counterexample :
    objGet ((mergeValidationResults 0 [c4ResultFirst, c4ResultSecond]).evidence.getD [])
        "textExists" = some (.vBool true)
    ∧ objGet ((mergeValidationResults 0 [c4ResultFirst, c4ResultSecond]).evidence.getD [])
        "textExists_validator2" = none := ⟨rfl, rfl⟩

/-- Claim C4, amended: collisions are detected by JS truthiness of the
value already stored, not by key presence.  When two merged results share
an evidence key and the first stored value is truthy, the later occurrence
is stored under the key suffixed with its 1-based validator index and both
values appear; when the first stored value is falsy, the later occurrence
silently overwrites it and no suffixed key is created. -/
theorem mergeEvidence_collision_truthiness
    (now : Nat) (k : String) (v1 v2 : EvValue) (r1 r2 : VResult)
    (h1 : r1.evidence = some [(k, v1)]) (h2 : r2.evidence = some [(k, v2)])
    (hk1 : k ≠ "validatorCount") (hk2 : k ≠ "validatorsAgreed") :
    (truthy v1 = true →
      objGet ((mergeValidationResults now [r1, r2]).evidence.getD []) k = some v1
      ∧ objGet ((mergeValidationResults now [r1, r2]).evidence.getD [])
          (k ++ "_validator2") = some v2)
    ∧ (truthy v1 = false →
      objGet ((mergeValidationResults now [r1, r2]).evidence.getD []) k = some v2
      ∧ objGet ((mergeValidationResults now [r1, r2]).evidence.getD [])
          (k ++ "_validator2") = none) := by
  have hsfx : (k ++ "_validator" ++ toString (1 + 1)) = k ++ "_validator2" := by
    have h2s : ("_validator" ++ toString (1 + 1 : Nat) : String) = "_validator2" := rfl
    rw [String.append_assoc, h2s]
  have e1 : mergeEvidenceInto [] 0 r1 = [(k, v1)] := by
    simp [mergeEvidenceInto, h1, objGet, objSet]
  have hget1 : objGet [(k, v1)] k = some v1 := by simp [objGet]
  have e2 : mergeEvidenceInto [(k, v1)] 1 r2 =
      (if truthy v1 then [(k, v1), (k ++ "_validator2", v2)] else [(k, v2)]) := by
    simp only [mergeEvidenceInto, h2, List.foldl_cons, List.foldl_nil, hget1]
    by_cases ht : truthy v1
    · simp only [ht, if_true]
      rw [hsfx]
      have hne : ¬ (k = k ++ "_validator2") := Ne.symm (validatorSuffix_ne_self k)
      simp [objSet, beq_iff_eq, hne]
    · simp only [ht, if_false, Bool.false_eq_true]
      simp [objSet]
  have hev : (mergeValidationResults now [r1, r2]).evidence.getD []
      = objSet (objSet (mergeEvidenceInto (mergeEvidenceInto [] 0 r1) 1 r2)
          "validatorCount" (.vNum 2))
          "validatorsAgreed" (.vBool ([r1, r2].all (fun r => r.isValid))) := rfl
  rw [hev, e1, e2]
  constructor
  · intro ht
    rw [if_pos ht]
    constructor
    · rw [objGet_objSet_ne _ _ _ _ hk2, objGet_objSet_ne _ _ _ _ hk1]
      simp [objGet]
    · rw [objGet_objSet_ne _ _ _ _ (validatorSuffix_ne_validatorsAgreed k),
          objGet_objSet_ne _ _ _ _ (validatorSuffix_ne_validatorCount k)]
      have hne : ¬ (k = k ++ "_validator2") := Ne.symm (validatorSuffix_ne_self k)
      simp [objGet, beq_iff_eq, hne]
  · intro ht
    rw [if_neg (by simp [ht])]
    constructor
    · rw [objGet_objSet_ne _ _ _ _ hk2, objGet_objSet_ne _ _ _ _ hk1]
      simp [objGet]
    · rw [objGet_objSet_ne _ _ _ _ (validatorSuffix_ne_validatorsAgreed k),
          objGet_objSet_ne _ _ _ _ (validatorSuffix_ne_validatorCount k)]
      have hne : ¬ (k = k ++ "_validator2") := Ne.symm (validatorSuffix_ne_self k)
      simp [objGet, beq_iff_eq, hne]

/-- Claim C4, witness: with a truthy first value under source, the losing
occurrence lands under source_validator2. -/
theorem mergeEvidence_collision_truthiness_witness :
    objGet ((mergeValidationResults 0 [c4TruthyFirst, c4TruthySecond]).evidence.getD [])
        ("source" ++ "_validator2") = some (.vStr "levelB") :=
  ((mergeEvidence_collision_truthiness 0 "source" (.vStr "levelA") (.vStr "levelB")
    c4TruthyFirst c4TruthySecond rfl rfl (by decide) (by decide)).1 rfl).2

/-- Claim C5, counterexample: aggregateResults on the empty list returns a
summary without a successRate field at all (modelled as none), so the
summary does not contain successRate = 0 as the claim states. -/
theorem aggregateResults_empty_missing_successRate :
    (aggregateResults []).summary.successRate = none
    ∧ (aggregateResults []).summary.successRate ≠ some 0 :=
  ⟨rfl, by decide⟩

/-- Claim C5, amended: aggregateResults on an empty (or absent, which JS
destructures to the same falsy check) results list returns normally with
totalCount, successCount, failureCount and averageCertainty all zero and
an empty results array, but the successRate field is omitted from this
empty-input summary. -/
theorem aggregateResults_empty_summary :
    aggregateResults [] =
      { summary :=
          { totalCount := 0
            successCount := 0
            failureCount := 0
            averageCertaintyTenths := 0
            successRate := none }
        results := [] } := rfl

/-- Claim C6: the local basic fallback validator always reports
validationLevel 1 and certaintyLevel at most 2, with certainty exactly 2
and isValid true precisely when the content text is non-empty; and a
router with no registered validator ARN at any level returns exactly this
fallback result, whose certainty is below the attestation threshold 4. -/
theorem basicValidator_certainty_cap :
    (∀ (now : Nat) (regulation : Regulation) (regulationContent : Content) (options : Options),
      (performBasicValidation now regulation regulationContent options).validationLevel = 1
      ∧ (performBasicValidation now regulation regulationContent options).certaintyLevel ≤ 2
      ∧ ((performBasicValidation now regulation regulationContent options).certaintyLevel = 2
          ↔ jsOrStr regulationContent.text "" ≠ "")
      ∧ ((performBasicValidation now regulation regulationContent options).isValid = true
          ↔ jsOrStr regulationContent.text "" ≠ ""))
    ∧ (∀ (env : Env) (params : RouteParams),
      env.level1ValidatorArn = false → env.level2ValidatorArn = false →
      env.level3ValidatorArn = false →
      routeToValidator env params
        = performBasicValidation env.now params.regulation params.regulationContent params.options
      ∧ (routeToValidator env params).certaintyLevel < 4) := by
  have hbasic : ∀ (now : Nat) (regulation : Regulation) (regulationContent : Content)
      (options : Options),
      (performBasicValidation now regulation regulationContent options).certaintyLevel ≤ 2 := by
    intro now regulation regulationContent options
    show (if 0 < (jsOrStr regulationContent.text "").length then 2 else 1) ≤ 2
    split <;> omega
  constructor
  · intro now regulation regulationContent options
    refine ⟨rfl, hbasic now regulation regulationContent options, ?_, ?_⟩
    · show (if 0 < (jsOrStr regulationContent.text "").length then 2 else 1) = 2
          ↔ jsOrStr regulationContent.text "" ≠ ""
      rw [← string_length_pos_iff]
      split <;> rename_i hsplit <;> simp [hsplit]
    · show (decide (0 < (jsOrStr regulationContent.text "").length)) = true
          ↔ jsOrStr regulationContent.text "" ≠ ""
      rw [← string_length_pos_iff]
      simp
  · intro env params h1 h2 h3
    have harn : (match params.validationLevel with
        | 1 => env.level1ValidatorArn
        | 2 => env.level2ValidatorArn || env.level1ValidatorArn
        | 3 => env.level3ValidatorArn || env.level2ValidatorArn || env.level1ValidatorArn
        | _ => env.level1ValidatorArn) = false := by
      rcases params.validationLevel with _ | _ | _ | _ | n <;> simp [h1, h2, h3]
    have hroute : routeToValidator env params
        = performBasicValidation env.now params.regulation params.regulationContent
            params.options := by
      simp only [routeToValidator, harn]
      rfl
    refine ⟨hroute, ?_⟩
    rw [hroute]
    have := hbasic env.now params.regulation params.regulationContent params.options
    omega

/-- Claim C6, witness: with no validator ARN configured, routing the
concrete parameters can never reach the attestation threshold. -/
theorem basicValidator_certainty_cap_witness :
    (routeToValidator c6Env c6Params).certaintyLevel < 4 :=
  (basicValidator_certainty_cap.2 c6Env c6Params rfl rfl rfl).2

/-- Claim C7: whenever the remote validator invocation fails - the Lambda
reports a FunctionError (rethrown) or the call throws a transport error -
routeToValidator returns the local basic validation result instead of
propagating the error, so no validator-unavailable error reaches the
caller. -/
theorem routeToValidator_recovers_via_fallback (env : Env) (params : RouteParams)
    (h : env.invoke (buildValidatorPayload params) = .functionError
       ∨ env.invoke (buildValidatorPayload params) = .transportError) :
    routeToValidator env params
      = performBasicValidation env.now params.regulation params.regulationContent
          params.options := by
  rcases h with h | h <;> simp [routeToValidator, h, ite_self]

/-- Claim C7, witness: a concrete FunctionError invocation falls back to
the local basic validation result. -/
theorem routeToValidator_recovers_via_fallback_witness :
    routeToValidator c7Env c6Params
      = performBasicValidation c7Env.now c6Params.regulation c6Params.regulationContent
          c6Params.options :=
  routeToValidator_recovers_via_fallback c7Env c6Params (Or.inl rfl)

/-- Claim C8: the classifier's determined level is 1 for scores below 30,
2 for scores from 30 below 70, and 3 from 70 on, monotonically
non-decreasing in the score; and classifyRegulation returns the maximum of
the requested level and the determined level, hence never less than the
requested level. -/
theorem classifier_bands_monotone_escalating :
    (∀ s1 s2 : Nat, s1 ≤ s2 → determinedLevelOf s1 ≤ determinedLevelOf s2)
    ∧ (∀ s : Nat, (s < 30 → determinedLevelOf s = 1)
        ∧ (30 ≤ s → s < 70 → determinedLevelOf s = 2)
        ∧ (70 ≤ s → determinedLevelOf s = 3))
    ∧ (∀ (regulation : Regulation) (requestedLevel : Nat),
        (classifyRegulation regulation requestedLevel).validationLevel
          = Nat.max requestedLevel
              (determinedLevelOf (classifyRegulation regulation requestedLevel).complexityScore)
        ∧ requestedLevel ≤ (classifyRegulation regulation requestedLevel).validationLevel) := by
  refine ⟨?_, ?_, ?_⟩
  · intro s1 s2 h
    unfold determinedLevelOf
    split_ifs <;> omega
  · intro s
    unfold determinedLevelOf
    refine ⟨?_, ?_, ?_⟩ <;> intro h <;> try intro h2
    all_goals split_ifs <;> omega
  · intro regulation requestedLevel
    exact ⟨rfl, Nat.le_max_left _ _⟩

/-- Claim C8, witness: the bands at 10, 29, 69, 70 and monotonicity
between 10 and 50, instantiated concretely. -/
theorem classifier_bands_monotone_escalating_witness :
    determinedLevelOf 10 ≤ determinedLevelOf 50
    ∧ determinedLevelOf 29 = 1 ∧ determinedLevelOf 69 = 2 ∧ determinedLevelOf 70 = 3 :=
  ⟨classifier_bands_monotone_escalating.1 10 50 (by omega),
   (classifier_bands_monotone_escalating.2.1 29).1 (by omega),
   (classifier_bands_monotone_escalating.2.1 69).2.1 (by omega) (by omega),
   (classifier_bands_monotone_escalating.2.1 70).2.2 (by omega)⟩

set_option maxRecDepth 4000 in
/-- Claim C9: the code bug exhibited.  contentSize, changeFrequency and
structuralComplexity always lie in 0..100, but the textComplexity factor
reaches 110 on c9Regulation (all three pattern bonuses, the large-title
bonus and the Financial baseline sum to 20+20+20+30+20), exceeding the
0..100 range that both the claim and the code's own comment state; in
general the code's textComplexity ranges over 10..110. -/
theorem textComplexity_exceeds_documented_range :
    (analyzeComplexity c9Regulation).textComplexity = 110
    ∧ 100 < (analyzeComplexity c9Regulation).textComplexity
    ∧ (∀ regulation : Regulation,
        (analyzeComplexity regulation).contentSize ≤ 100
        ∧ analyzeChangeFrequency regulation ≤ 100
        ∧ analyzeStructure regulation ≤ 100
        ∧ 10 ≤ (analyzeComplexity regulation).textComplexity
        ∧ (analyzeComplexity regulation).textComplexity ≤ 110) := by
  have h110 : (analyzeComplexity c9Regulation).textComplexity = 110 := rfl
  refine ⟨h110, by rw [h110]; omega, ?_⟩
  intro regulation
  refine ⟨?_, ?_, ?_, ?_, ?_⟩
  · simp only [analyzeComplexity]
    split_ifs <;> omega
  · simp only [analyzeChangeFrequency]
    split_ifs <;> omega
  · simp only [analyzeStructure]
    split_ifs <;> omega
  · simp only [analyzeComplexity]
    split_ifs <;> omega
  · simp only [analyzeComplexity]
    split_ifs <;> omega

/-- Claim C10: a batch request whose regulations array is empty or longer
than 50 entries fails batch shape validation and is answered with the
400-class invalid-request error carrying only the shape errors, before any
per-regulation validation runs. -/
theorem batchShape_rejects_empty_and_oversize (body : BatchBody) (env : Env)
    (regs : List ReqBody) (hregs : body.regulations = some regs)
    (hsize : regs = [] ∨ 50 < regs.length) :
    handleBatchValidationRequest body env
      = .invalidRequest (validateBatchValidationRequest body).errors
    ∧ (validateBatchValidationRequest body).isValid = false := by
  have hinvalid : (validateBatchValidationRequest body).isValid = false := by
    unfold validateBatchValidationRequest
    rw [hregs]
    rw [List.isEmpty_eq_false]
    intro hE
    rcases hsize with rfl | hgt
    · simp [List.append_eq_nil] at hE
    · have h0 : ¬ (regs.length = 0) := by omega
      have h50 : regs.length > 50 := hgt
      simp [h0, h50, List.append_eq_nil] at hE
  refine ⟨?_, hinvalid⟩
  simp [handleBatchValidationRequest, hinvalid]

/-- Claim C10, witness: the concrete empty batch is rejected with the
invalid-request error. -/
theorem batchShape_rejects_empty_and_oversize_witness :
    handleBatchValidationRequest { regulations := some [] } c2Env
      = .invalidRequest
          (validateBatchValidationRequest
            { regulations := some ([] : List ReqBody) }).errors
    ∧ (validateBatchValidationRequest { regulations := some ([] : List ReqBody) }).isValid
        = false :=
  batchShape_rejects_empty_and_oversize { regulations := some [] } c2Env [] rfl (Or.inl rfl)

end EdSteward
